import Mathlib

/-!
Shallow embedding of the core of the `translate` application: the audio
recording session (`src/hooks/useAudioRecorder.ts`), the room channel client
and transcript store (room page), and the translation API route
(`src/app/api/translate/route.ts`). Byte sequences stand in for platform
`Blob` contents; external platform capabilities (JSON parsing, the upstream
model call, acknowledgment timing) are explicit parameters.
-/

namespace CoupleTranslate

/-- Blob contents are modelled as byte sequences. -/
abbrev Bytes := List Nat

/-- Handler body of `mediaRecorder.ondataavailable`: a chunk is appended to
the session buffer only when `event.data && event.data.size > 0`; empty
chunks are discarded before buffering. -/
def ondataavailable (chunks : List Bytes) (data : Bytes) : List Bytes :=
  if 0 < data.length then chunks ++ [data] else chunks

/-- Chunk buffer (`chunksRef`) produced by a sequence of data events during
one recording session, starting from the empty buffer set in `startRecording`. -/
def bufferChunks (emissions : List Bytes) : List Bytes :=
  emissions.foldl ondataavailable []

/-- Effective media type of the finalized blob: `recorder.mimeType || 'audio/mp4'`
(the empty string is falsy in JavaScript). -/
def effectiveMime (mimeType : String) : String :=
  if mimeType = "" then "audio/mp4" else mimeType

/-- Finalization step of `cleanup` inside `stopRecording`: resolve `null` when
the chunk buffer is empty, otherwise a Blob concatenating the buffered chunks,
tagged with the effective media type. -/
def finalizePayload (chunks : List Bytes) (mimeType : String) : Option (Bytes × String) :=
  if chunks.length = 0 then none
  else some (chunks.flatten, effectiveMime mimeType)

theorem foldl_ondataavailable (l : List Bytes) (acc : List Bytes) :
    l.foldl ondataavailable acc = acc ++ l.filter (fun c => 0 < c.length) := by
  induction l generalizing acc with
  | nil => simp
  | cons c cs ih =>
    simp only [List.foldl_cons, List.filter_cons, ondataavailable]
    by_cases h : 0 < c.length
    · simp [h, ih]
    · simp [h, ih]

theorem bufferChunks_eq_filter (emissions : List Bytes) :
    bufferChunks emissions = emissions.filter (fun c => 0 < c.length) := by
  simpa using foldl_ondataavailable emissions []

/-- C1: for every sequence of chunk emissions during one recording session
containing at least one non-empty chunk, the payload resolved by
`stopRecording` is exactly the concatenation, in emission order, of the
non-empty chunks: size-zero chunks are discarded before buffering, and
buffered chunks are neither reordered nor deduplicated. -/
theorem C1_payload_is_ordered_concat_of_nonempty_chunks
    (emissions : List Bytes) (mimeType : String)
    (h : ∃ c ∈ emissions, 0 < c.length) :
    finalizePayload (bufferChunks emissions) mimeType =
      some ((emissions.filter (fun c => 0 < c.length)).flatten, effectiveMime mimeType) := by
  rw [bufferChunks_eq_filter, finalizePayload]
  obtain ⟨c, hc, hlen⟩ := h
  have hmem : c ∈ emissions.filter (fun c => 0 < c.length) := by
    simp [List.mem_filter, hc, hlen]
  have hne : emissions.filter (fun c => 0 < c.length) ≠ [] :=
    List.ne_nil_of_mem hmem
  simp [List.length_eq_zero, hne]

/-- Witness for C1 at a concrete emission sequence with an empty chunk and a
duplicated non-empty chunk. -/
theorem C1_witness :
    finalizePayload (bufferChunks [[7, 8], [], [7, 8], [9]]) "" =
      some ([7, 8, 7, 8, 9], "audio/mp4") := by
  have h : ∃ c ∈ [([7, 8] : Bytes), [], [7, 8], [9]], 0 < c.length := by decide
  have := C1_payload_is_ordered_concat_of_nonempty_chunks [[7, 8], [], [7, 8], [9]] "" h
  simpa using this

/-- Readiness state of a platform MediaRecorder. -/
inductive RecorderState
  | recording
  | paused
  | inactive
deriving DecidableEq, Repr

/-- One hardware track of the device stream; stopping it releases the
microphone. -/
structure Track where
  stopped : Bool
deriving DecidableEq, Repr

/-- The platform recorder as `stopRecording` sees it: readiness state,
reported mime type, and the tracks of the stream it holds. -/
structure MediaRecorder where
  state : RecorderState
  mimeType : String
  tracks : List Track
deriving DecidableEq, Repr

/-- Observable outcome of one `stopRecording` call on a live recorder. -/
structure StopOutcome where
  payload : Option (Bytes × String)
  tracks : List Track
  resolveTime : Nat
  isRecordingAfter : Bool
deriving DecidableEq, Repr

/-- Body of `stopRecording` when a recorder instance exists. `ackTime`, when
present, is the instant the platform fires `onstop`; `none` means the stop
acknowledgment never arrives. The `onstop` handler and the 1000 ms timeout
run the same `cleanup`: stop the recorder if still active, stop every track
of the stream, clear `isRecording`, and finalize the buffered chunks. When
the recorder is already inactive, `cleanup` runs at once. -/
def stopRecordingRun (r : MediaRecorder) (chunks : List Bytes) (ackTime : Option Nat) :
    StopOutcome :=
  { payload := finalizePayload chunks r.mimeType
    tracks := r.tracks.map (fun _ => { stopped := true })
    resolveTime :=
      if r.state = RecorderState.inactive then 0
      else
        match ackTime with
        | some t => min t 1000
        | none => 1000
    isRecordingAfter := false }

/-- Whole `stopRecording`: resolves `null` at once when no recorder instance
exists, otherwise runs the promise body above. -/
def stopRecording (recorder : Option MediaRecorder) (chunks : List Bytes)
    (ackTime : Option Nat) : Option StopOutcome :=
  recorder.map (fun r => stopRecordingRun r chunks ackTime)

/-- C2: when the device's stop acknowledgment never arrives, `stopRecording`
still resolves within the bounded 1000 ms timeout, yields the finalized
payload built from whatever chunks were buffered, stops every track of the
device stream (releasing the microphone), and leaves the session not
recording. -/
theorem C2_stop_without_ack_resolves_and_releases
    (r : MediaRecorder) (chunks : List Bytes) (h : chunks ≠ []) :
    (stopRecordingRun r chunks none).resolveTime ≤ 1000 ∧
    (stopRecordingRun r chunks none).payload =
      some (chunks.flatten, effectiveMime r.mimeType) ∧
    ((stopRecordingRun r chunks none).tracks.all fun t => t.stopped) = true ∧
    (stopRecordingRun r chunks none).isRecordingAfter = false := by
  refine ⟨?_, ?_, ?_, rfl⟩
  · by_cases hs : r.state = RecorderState.inactive <;> simp [stopRecordingRun, hs]
  · simp [stopRecordingRun, finalizePayload, List.length_eq_zero, h]
  · simp [stopRecordingRun]

/-- Witness for C2 on a concrete live recorder with two tracks and two
buffered chunks. -/
theorem C2_witness :
    (stopRecordingRun ⟨RecorderState.recording, "", [⟨false⟩, ⟨false⟩]⟩
        [[1], [2, 3]] none).resolveTime ≤ 1000 ∧
    (stopRecordingRun ⟨RecorderState.recording, "", [⟨false⟩, ⟨false⟩]⟩
        [[1], [2, 3]] none).payload =
      some (([[1], [2, 3]] : List Bytes).flatten, effectiveMime "") ∧
    ((stopRecordingRun ⟨RecorderState.recording, "", [⟨false⟩, ⟨false⟩]⟩
        [[1], [2, 3]] none).tracks.all fun t => t.stopped) = true ∧
    (stopRecordingRun ⟨RecorderState.recording, "", [⟨false⟩, ⟨false⟩]⟩
        [[1], [2, 3]] none).isRecordingAfter = false :=
  C2_stop_without_ack_resolves_and_releases
    ⟨RecorderState.recording, "", [⟨false⟩, ⟨false⟩]⟩ [[1], [2, 3]] (by decide)

/-- Client language, `'ko' | 'vi'` from `src/lib/types.ts`. -/
inductive Lang
  | ko
  | vi
deriving DecidableEq, Repr

/-- A transcript entry (`Message` in `src/lib/types.ts`); the optional
`audioUrl` is omitted, the room page never sets it. -/
structure Message where
  id : String
  role : String
  originalText : String
  translatedText : String
  timestamp : Nat
  language : Lang
deriving DecidableEq, Repr

/-- Payload of a `translated-message` event on the room channel. -/
structure EventData where
  id : String
  originalText : String
  translatedText : String
  timestamp : Nat
  sourceLang : Lang
deriving DecidableEq, Repr

/-- One `speakText` invocation: it cancels any in-flight speech and speaks
`text` with the platform language tag derived from `lang`. -/
structure SpeakCall where
  text : String
  langTag : String
  cancelledCurrent : Bool
deriving DecidableEq, Repr

/-- The `speakText` helper of the room page. -/
def speakText (text : String) (lang : Lang) : SpeakCall :=
  { text := text
    langTag := if lang = Lang.vi then "vi-VN" else "ko-KR"
    cancelledCurrent := true }

/-- The `Message` the bind handler constructs from an event payload. -/
def messageOfEvent (data : EventData) : Message :=
  { id := data.id
    role := "user"
    originalText := data.originalText
    translatedText := data.translatedText
    timestamp := data.timestamp
    language := data.sourceLang }

/-- The `setMessages` updater inside the bind handler: keep the previous list
unchanged when the new message's `id` is already present, otherwise append. -/
def applyMessageUpdate (prev : List Message) (m : Message) : List Message :=
  if prev.any (fun x => x.id = m.id) then prev else prev ++ [m]

/-- The `channel.bind('translated-message', ...)` handler: offer the incoming
utterance to the transcript store, and auto-play
`speakText(data.translatedText, myLanguage)` exactly when
`data.sourceLang !== myLanguage`. -/
def channelBindHandler (myLanguage : Lang) (prev : List Message) (data : EventData) :
    List Message × Option SpeakCall :=
  (applyMessageUpdate prev (messageOfEvent data),
   if data.sourceLang ≠ myLanguage then some (speakText data.translatedText myLanguage)
   else none)

/-- Transcript store after a sequence of channel deliveries, starting empty. -/
def deliverAll (myLanguage : Lang) (events : List EventData) : List Message :=
  events.foldl (fun prev d => (channelBindHandler myLanguage prev d).1) []

theorem applyMessageUpdate_nodup (prev : List Message) (m : Message)
    (h : (prev.map Message.id).Nodup) :
    ((applyMessageUpdate prev m).map Message.id).Nodup := by
  unfold applyMessageUpdate
  split
  · exact h
  · next hany =>
    simp only [List.any_eq_true, decide_eq_true_eq] at hany
    push_neg at hany
    rw [List.map_append, List.nodup_append]
    refine ⟨h, by simp, ?_⟩
    intro a ha
    simp only [List.mem_map] at ha
    obtain ⟨x, hx, rfl⟩ := ha
    simpa using fun e => hany x hx e

theorem deliverAll_nodup (myLanguage : Lang) (events : List EventData) :
    ((deliverAll myLanguage events).map Message.id).Nodup := by
  unfold deliverAll
  generalize hacc : ([] : List Message) = acc
  have hstart : (acc.map Message.id).Nodup := by simp [← hacc]
  clear hacc
  induction events generalizing acc with
  | nil => simpa using hstart
  | cons d ds ih =>
    simp only [List.foldl_cons]
    exact ih _ (applyMessageUpdate_nodup acc (messageOfEvent d) hstart)

/-- C3: over every sequence of channel deliveries the transcript store never
holds two entries with the same `id`; offering a message whose `id` is
already present leaves the store unchanged; and delivering the same event
twice stores exactly one entry. -/
theorem C3_store_deduplicates_by_id (myLanguage : Lang) (events : List EventData) :
    ((deliverAll myLanguage events).map Message.id).Nodup ∧
    (∀ prev m, (∃ x ∈ prev, x.id = m.id) → applyMessageUpdate prev m = prev) ∧
    (∀ d, deliverAll myLanguage [d, d] = [messageOfEvent d]) := by
  refine ⟨deliverAll_nodup myLanguage events, ?_, ?_⟩
  · intro prev m hmem
    obtain ⟨x, hx, hid⟩ := hmem
    have : prev.any (fun y => y.id = m.id) = true := by
      simp only [List.any_eq_true, decide_eq_true_eq]
      exact ⟨x, hx, hid⟩
    simp [applyMessageUpdate, this]
  · intro d
    simp [deliverAll, channelBindHandler, applyMessageUpdate, messageOfEvent]

/-- Witness for C3: a duplicated delivery of the same event id stores one
entry, and re-offering a stored message leaves the store unchanged. -/
theorem C3_witness :
    ((deliverAll Lang.ko
        [⟨"u1", "hi", "xin chao", 0, Lang.ko⟩,
         ⟨"u1", "hi", "xin chao", 0, Lang.ko⟩]).map Message.id).Nodup ∧
    applyMessageUpdate [⟨"u1", "user", "hi", "xin chao", 0, Lang.ko⟩]
        ⟨"u1", "user", "hi", "xin chao", 0, Lang.ko⟩ =
      [⟨"u1", "user", "hi", "xin chao", 0, Lang.ko⟩] :=
  ⟨(C3_store_deduplicates_by_id Lang.ko
      [⟨"u1", "hi", "xin chao", 0, Lang.ko⟩, ⟨"u1", "hi", "xin chao", 0, Lang.ko⟩]).1,
   (C3_store_deduplicates_by_id Lang.ko
      [⟨"u1", "hi", "xin chao", 0, Lang.ko⟩, ⟨"u1", "hi", "xin chao", 0, Lang.ko⟩]).2.1
     [⟨"u1", "user", "hi", "xin chao", 0, Lang.ko⟩]
     ⟨"u1", "user", "hi", "xin chao", 0, Lang.ko⟩ (by decide)⟩

/-- C4: for every delivered utterance, speech playback fires iff the
utterance's source language differs from the receiver's configured language,
and when it fires it speaks the utterance's translated text in the
receiver's own language. -/
theorem C4_playback_iff_source_differs
    (myLanguage : Lang) (prev : List Message) (data : EventData) :
    ((channelBindHandler myLanguage prev data).2.isSome ↔
      data.sourceLang ≠ myLanguage) ∧
    (∀ call, (channelBindHandler myLanguage prev data).2 = some call →
      call = speakText data.translatedText myLanguage) := by
  constructor
  · by_cases hsrc : data.sourceLang = myLanguage <;> simp [channelBindHandler, hsrc]
  · intro call hcall
    by_cases hsrc : data.sourceLang = myLanguage
    · simp [channelBindHandler, hsrc] at hcall
    · simp [channelBindHandler, hsrc] at hcall
      exact hcall.symm

/-- Witness for C4: a Vietnamese-sourced utterance delivered to a Korean
receiver fires playback of its translated text in Korean. -/
theorem C4_witness :
    ((channelBindHandler Lang.ko [] ⟨"u1", "hi", "annyeong", 0, Lang.vi⟩).2.isSome ↔
      Lang.vi ≠ Lang.ko) ∧
    speakText "annyeong" Lang.ko = speakText "annyeong" Lang.ko :=
  ⟨(C4_playback_iff_source_differs Lang.ko [] ⟨"u1", "hi", "annyeong", 0, Lang.vi⟩).1,
   (C4_playback_iff_source_differs Lang.ko [] ⟨"u1", "hi", "annyeong", 0, Lang.vi⟩).2
     (speakText "annyeong" Lang.ko) (by decide)⟩

/-- The Pusher client singleton: currently subscribed channel names and the
registered event-handler bindings `(channelName, eventName)`. `subscribe` on
an already-subscribed channel returns the existing channel; `bind` always
registers one more handler. -/
structure PusherClient where
  subs : List String
  binds : List (String × String)
deriving DecidableEq, Repr

/-- `pusherClient.subscribe(name)`. -/
def pusherSubscribe (p : PusherClient) (name : String) : PusherClient :=
  if name ∈ p.subs then p else { p with subs := p.subs ++ [name] }

/-- `channel.bind(evt, handler)` on the channel `name`. -/
def pusherBind (p : PusherClient) (name evt : String) : PusherClient :=
  { p with binds := p.binds ++ [(name, evt)] }

/-- `pusherClient.unsubscribe(name)`: drops the subscription and every
handler bound on that channel. -/
def pusherUnsubscribe (p : PusherClient) (name : String) : PusherClient :=
  { subs := p.subs.filter (fun s => s ≠ name)
    binds := p.binds.filter (fun b => b.1 ≠ name) }

/-- Channel effects of the body of `initPusher` in the room page: subscribe
to `room-<roomId>` and bind the `translated-message` handler. -/
def initPusherEffects (roomId : String) (p : PusherClient) : PusherClient :=
  pusherBind (pusherSubscribe p ("room-" ++ roomId)) ("room-" ++ roomId) "translated-message"

/-- The unsubscribe closure constructed inside `initPusher`. It is the value
of the promise `initPusher()` returns — not a value the surrounding
`useEffect` ever returns to React. -/
def initPusherCleanup (roomId : String) (p : PusherClient) : PusherClient :=
  pusherUnsubscribe p ("room-" ++ roomId)

/-- The room page's `useEffect(..., [roomId, myLanguage])` body as written:
for a non-empty `roomId` it invokes `initPusher()` (whose subscribe/bind
effects happen) but discards the returned promise, so the effect hands no
cleanup function back to React. -/
def roomSubscriptionEffect (roomId : String) (p : PusherClient) :
    PusherClient × Option (PusherClient → PusherClient) :=
  (if roomId ≠ "" then initPusherEffects roomId p else p, none)

/-- React effect lifecycle: on each run after the first, the previous run's
cleanup (when any) is applied before the body runs again. `runs` counts
effect executions — the mount plus one per dependency change (for this
effect, any `myLanguage` toggle). -/
def runRoomEffect (roomId : String) :
    Nat → PusherClient × Option (PusherClient → PusherClient) →
      PusherClient × Option (PusherClient → PusherClient)
  | 0, st => st
  | n + 1, (p, cl) =>
      let p1 := match cl with
        | some f => f p
        | none => p
      runRoomEffect roomId n (roomSubscriptionEffect roomId p1)

/-- The effect lifecycle from a fresh client: mount plus `runs - 1`
dependency-change re-runs. -/
def mountAndRerun (roomId : String) (runs : Nat) :
    PusherClient × Option (PusherClient → PusherClient) :=
  runRoomEffect roomId runs ({ subs := [], binds := [] }, none)

/-- Unmounting the room view applies the last run's cleanup, when React holds
one. -/
def unmountRoom (st : PusherClient × Option (PusherClient → PusherClient)) :
    PusherClient :=
  match st.2 with
  | some f => f st.1
  | none => st.1

/-- C5: evaluation of the subscription lifecycle at the failing input — the
room view mounts with room id "r", the effect re-runs once (its dependency
`myLanguage` changed), then the view unmounts. Contrary to the claim, two
live `translated-message` bindings for the room exist after the re-run and
both survive unmount: the effect returns no cleanup to React (the
unsubscribe closure sits inside the promise returned by the async
`initPusher` and is discarded), so `pusherClient.unsubscribe` is never
invoked. Had the constructed cleanup been applied, the binding would have
been released. -/
theorem C5_rerun_duplicates_binding_and_unmount_leaks :
    (unmountRoom (mountAndRerun "r" 2)).binds =
      [("room-r", "translated-message"), ("room-r", "translated-message")] ∧
    (unmountRoom (mountAndRerun "r" 2)).subs = ["room-r"] ∧
    (roomSubscriptionEffect "r" { subs := [], binds := [] }).2 = none ∧
    initPusherCleanup "r" (unmountRoom (mountAndRerun "r" 2)) =
      { subs := [], binds := [] } := by
  refine ⟨by decide, by decide, rfl, by decide⟩

/-- Form data built by `processAudio` in the room page: the blob is uploaded
under the constant file name `recording.webm` whatever its own media-type
tag says. -/
structure TranslateFormData where
  fileName : String
  blobBytes : Bytes
  blobType : String
  sourceLang : Lang
  targetLang : Lang
  roomId : String
deriving DecidableEq, Repr

/-- Outcome of the `fetch('/api/translate')` round trip as the client sees
it: a parsed OK response, a non-OK response whose error message is thrown,
or a network/parse failure. -/
inductive FetchResult
  | success (originalText translatedText : String)
  | httpError (errMsg : String)
  | networkFailure (msg : String)
deriving DecidableEq, Repr

/-- Observable effects of one `processAudio` call in the channel-connected
room page: the request it sends, the `setMessages` updates it issues, whether
the failure alert fired, and `isProcessing` afterwards. -/
structure SubmitOutcome where
  request : TranslateFormData
  storeUpdates : List (List Message → List Message)
  alerted : Bool
  processingAfter : Bool

/-- `processAudio` of the channel-connected room page: build the form data,
post it, and on success apply nothing to the transcript — the page waits for
the Pusher echo; on any failure, alert and leave the transcript alone. -/
def processAudio (myLanguage : Lang) (roomId : String) (blobBytes : Bytes)
    (blobType : String) (result : FetchResult) : SubmitOutcome :=
  { request :=
      { fileName := "recording.webm"
        blobBytes := blobBytes
        blobType := blobType
        sourceLang := myLanguage
        targetLang := if myLanguage = Lang.ko then Lang.vi else Lang.ko
        roomId := roomId }
    storeUpdates := []
    alerted :=
      match result with
      | .success _ _ => false
      | .httpError _ => true
      | .networkFailure _ => true
    processingAfter := false }

/-- Sequential application of the `setMessages` updates a call issued. -/
def applyStoreUpdates (ops : List (List Message → List Message))
    (prev : List Message) : List Message :=
  ops.foldl (fun s f => f s) prev

/-- C6: in room mode the submit path never modifies the local transcript —
on success and on upstream error alike it issues no store update, so the
Transcript Store is left unchanged; the only way an entry appears is the
Room Channel echo, which appends the delivered utterance when its id is
new. -/
theorem C6_submit_never_touches_store (myLanguage : Lang) (roomId : String)
    (blobBytes : Bytes) (blobType : String) (result : FetchResult)
    (prev : List Message) :
    applyStoreUpdates
        (processAudio myLanguage roomId blobBytes blobType result).storeUpdates prev =
      prev ∧
    (processAudio myLanguage roomId blobBytes blobType result).storeUpdates = [] ∧
    (∀ d : EventData, (∀ x ∈ prev, x.id ≠ d.id) →
      (channelBindHandler myLanguage prev d).1 = prev ++ [messageOfEvent d]) := by
  refine ⟨rfl, rfl, ?_⟩
  intro d hnew
  have : prev.any (fun x => x.id = (messageOfEvent d).id) = false := by
    simp only [List.any_eq_false, decide_eq_true_eq]
    intro x hx
    simpa [messageOfEvent] using hnew x hx
  simp [channelBindHandler, applyMessageUpdate, this]

/-- Witness for C6 on a concrete failed submission over a one-entry store,
followed by a channel echo of a fresh id. -/
theorem C6_witness :
    applyStoreUpdates
        (processAudio Lang.ko "r" [1] "audio/mp4" (.httpError "boom")).storeUpdates
        [⟨"u1", "user", "a", "b", 0, Lang.ko⟩] =
      [⟨"u1", "user", "a", "b", 0, Lang.ko⟩] ∧
    (channelBindHandler Lang.ko [⟨"u1", "user", "a", "b", 0, Lang.ko⟩]
        ⟨"u2", "c", "d", 1, Lang.vi⟩).1 =
      [⟨"u1", "user", "a", "b", 0, Lang.ko⟩] ++
        [messageOfEvent ⟨"u2", "c", "d", 1, Lang.vi⟩] :=
  ⟨(C6_submit_never_touches_store Lang.ko "r" [1] "audio/mp4" (.httpError "boom")
      [⟨"u1", "user", "a", "b", 0, Lang.ko⟩]).1,
   (C6_submit_never_touches_store Lang.ko "r" [1] "audio/mp4" (.httpError "boom")
      [⟨"u1", "user", "a", "b", 0, Lang.ko⟩]).2.2
     ⟨"u2", "c", "d", 1, Lang.vi⟩ (by decide)⟩

/-- Client-side recording control state of the room page, together with the
number of live microphone acquisitions held. -/
structure ClientState where
  isRecording : Bool
  isProcessing : Bool
  permissionFailed : Bool
  liveAcquisitions : Nat
deriving DecidableEq, Repr

/-- Fresh room page state. -/
def initialClient : ClientState :=
  { isRecording := false, isProcessing := false, permissionFailed := false
    liveAcquisitions := 0 }

/-- One microphone-button tap handled to completion on the event loop. The
button ignores taps while disabled (`permissionError` set or
`isProcessing`). Otherwise `toggleRecording` stops the live session when one
is recording — releasing its acquisition through the stop pipeline — and
only starts, acquiring the device, when none is; `grant` is the outcome of
`getUserMedia`. -/
def clientTap (s : ClientState) (grant : Bool) : ClientState :=
  if s.permissionFailed || s.isProcessing then s
  else if s.isRecording then
    { s with isRecording := false, isProcessing := false
             liveAcquisitions := s.liveAcquisitions - 1 }
  else if grant then
    { s with isRecording := true, liveAcquisitions := s.liveAcquisitions + 1 }
  else
    { s with permissionFailed := true }

/-- State after a sequence of taps from a fresh page. -/
def runTaps (grants : List Bool) : ClientState :=
  grants.foldl clientTap initialClient

/-- Session-exclusivity invariant of the client. -/
def clientInv (s : ClientState) : Prop :=
  s.liveAcquisitions ≤ 1 ∧ (s.isRecording = true ↔ s.liveAcquisitions = 1)

theorem clientTap_inv (s : ClientState) (g : Bool) (h : clientInv s) :
    clientInv (clientTap s g) := by
  obtain ⟨h1, h2⟩ := h
  unfold clientTap clientInv
  split
  · exact ⟨h1, h2⟩
  · split
    · next hrec =>
      have hone : s.liveAcquisitions = 1 := h2.mp hrec
      simp [hone]
    · next hrec =>
      have hzero : s.liveAcquisitions = 0 := by
        rcases Nat.lt_or_ge s.liveAcquisitions 1 with hl | hg
        · omega
        · exact absurd (h2.mpr (by omega)) hrec
      split
      · simp [hzero]
      · simp only [clientInv]
        constructor
        · exact h1
        · simpa [hzero] using h2

theorem runTaps_inv (grants : List Bool) : clientInv (runTaps grants) := by
  unfold runTaps
  have hstep : ∀ (l : List Bool) (s : ClientState), clientInv s →
      clientInv (l.foldl clientTap s) := by
    intro l
    induction l with
    | nil => intro s h; simpa using h
    | cons g gs ih => intro s h; exact ih _ (clientTap_inv s g h)
  exact hstep grants initialClient (by simp [clientInv, initialClient])

/-- C7: over every sequence of taps, at most one recording session is live at
a time — the client never holds two concurrent device acquisitions, the
recording flag tracks the single acquisition exactly, and a tap arriving
while a session is recording releases rather than acquires. -/
theorem C7_at_most_one_recording_session (grants : List Bool) :
    (runTaps grants).liveAcquisitions ≤ 1 ∧
    ((runTaps grants).isRecording = true ↔ (runTaps grants).liveAcquisitions = 1) ∧
    (∀ s g, s.isRecording = true →
      (clientTap s g).liveAcquisitions ≤ s.liveAcquisitions) := by
  obtain ⟨h1, h2⟩ := runTaps_inv grants
  refine ⟨h1, h2, ?_⟩
  intro s g hrec
  unfold clientTap
  split
  · exact le_refl _
  · simp [hrec]

/-- Witness for C7 on a concrete tap sequence (start, stop, denied start,
then taps on the disabled button). -/
theorem C7_witness :
    (runTaps [true, true, false, true]).liveAcquisitions ≤ 1 ∧
    ((runTaps [true, true, false, true]).isRecording = true ↔
      (runTaps [true, true, false, true]).liveAcquisitions = 1) ∧
    (clientTap ⟨true, false, false, 1⟩ true).liveAcquisitions ≤ 1 :=
  ⟨(C7_at_most_one_recording_session [true, true, false, true]).1,
   (C7_at_most_one_recording_session [true, true, false, true]).2.1,
   (C7_at_most_one_recording_session [true, true, false, true]).2.2
     ⟨true, false, false, 1⟩ true (by decide)⟩

/-- `handleStopRecording` of the room page: flip `isProcessing`, await
`stopRecording`, and submit through `processAudio` only when a payload came
back; on a `null` blob send nothing and clear `isProcessing`. The first
component is the submission made (when any), the second is `isProcessing`
afterwards. -/
def handleStopRecording (myLanguage : Lang) (roomId : String)
    (recorder : Option MediaRecorder) (chunks : List Bytes) (ackTime : Option Nat)
    (result : FetchResult) : Option SubmitOutcome × Bool :=
  match stopRecording recorder chunks ackTime with
  | none => (none, false)
  | some out =>
    match out.payload with
    | none => (none, false)
    | some (bytes, ty) => (some (processAudio myLanguage roomId bytes ty result), false)

/-- C8: a session whose every emitted chunk is empty yields no payload on
stop — `stopRecording` resolves `null`, the caller submits nothing (treating
it as nothing-to-send, not an error) and ends not processing, and the reset
client accepts a fresh start. -/
theorem C8_empty_capture_yields_no_payload
    (r : MediaRecorder) (emissions : List Bytes) (ackTime : Option Nat)
    (myLanguage : Lang) (roomId : String) (result : FetchResult)
    (h : ∀ c ∈ emissions, c.length = 0) :
    (stopRecordingRun r (bufferChunks emissions) ackTime).payload = none ∧
    handleStopRecording myLanguage roomId (some r) (bufferChunks emissions)
        ackTime result = (none, false) ∧
    (clientTap initialClient true).isRecording = true := by
  have hfilter : emissions.filter (fun c => 0 < c.length) = [] := by
    rw [List.filter_eq_nil_iff]
    intro c hc
    simp [h c hc]
  have hbuf : bufferChunks emissions = [] := by
    rw [bufferChunks_eq_filter, hfilter]
  refine ⟨?_, ?_, by decide⟩
  · simp [stopRecordingRun, hbuf, finalizePayload]
  · simp [handleStopRecording, stopRecording, stopRecordingRun, hbuf, finalizePayload]

/-- Witness for C8 on a session that produced only empty chunks. -/
theorem C8_witness :
    (stopRecordingRun ⟨RecorderState.recording, "audio/webm", [⟨false⟩]⟩
        (bufferChunks [[], []]) none).payload = none ∧
    handleStopRecording Lang.ko "r"
        (some ⟨RecorderState.recording, "audio/webm", [⟨false⟩]⟩)
        (bufferChunks [[], []]) none (.success "a" "b") = (none, false) ∧
    (clientTap initialClient true).isRecording = true :=
  C8_empty_capture_yields_no_payload
    ⟨RecorderState.recording, "audio/webm", [⟨false⟩]⟩ [[], []] none
    Lang.ko "r" (.success "a" "b") (by decide)

/-- One left-to-right pass of `responseText.replace(/```json|```/g, '')`: at
each position the regex alternation first tries to match "```json", then
"```"; a match is removed and scanning resumes after it, other characters
are kept. -/
def stripFencesChars : List Char → List Char
  | [] => []
  | c :: cs =>
    if (c :: cs).take 7 = "```json".toList then stripFencesChars ((c :: cs).drop 7)
    else if (c :: cs).take 3 = "```".toList then stripFencesChars ((c :: cs).drop 3)
    else c :: stripFencesChars cs
termination_by l => l.length
decreasing_by
  · simp only [List.length_drop, List.length_cons]; omega
  · simp only [List.length_drop, List.length_cons]; omega
  · simp only [List.length_cons]; omega

/-- The markdown-fence cleanup applied to the raw upstream response text. -/
def stripFences (s : String) : String :=
  String.mk (stripFencesChars s.toList)

/-- An uploaded audio file as the route reads it from the form data; its own
content-type tag travels with it but the route never consults it. -/
structure AudioFile where
  bytes : Bytes
  contentType : String
deriving DecidableEq, Repr

/-- Request environment of `POST /api/translate`: the two API-key environment
variables (an empty string models an unset or empty variable — both falsy in
JavaScript) and the parsed form fields. -/
structure ApiRequest where
  geminiKey : String
  googleKey : String
  audio : Option AudioFile
  sourceLang : String
  targetLang : String
deriving DecidableEq, Repr

/-- Behaviour of the upstream `generateContent` call: it either throws or
returns raw response text. -/
inductive UpstreamOutcome
  | threw (msg : String)
  | ok (text : String)
deriving DecidableEq, Repr

/-- The inline audio part handed to the upstream capability. -/
structure InlineData where
  mimeType : String
  bytes : Bytes
deriving DecidableEq, Repr

/-- The JSON body and status the route responds with. -/
structure ApiResponse where
  status : Nat
  error : Option String
  originalText : Option String
  translatedText : Option String
deriving DecidableEq, Repr

/-- Result of one route invocation: the HTTP response, the inline data sent
upstream when the call was made, and how many upstream calls were made. -/
structure PostResult where
  response : ApiResponse
  upstreamRequest : Option InlineData
  upstreamCalls : Nat
deriving DecidableEq, Repr

/-- `process.env.GEMINI_API_KEY || process.env.GOOGLE_API_KEY`. -/
def effectiveApiKey (req : ApiRequest) : String :=
  if req.geminiKey ≠ "" then req.geminiKey else req.googleKey

/-- The `POST` handler of `src/app/api/translate/route.ts`. `jsonParse`
models the platform `JSON.parse` restricted to the two fields the route
extracts; `none` when parsing throws. -/
def postTranslate (req : ApiRequest) (upstream : UpstreamOutcome)
    (jsonParse : String → Option (String × String)) : PostResult :=
  if effectiveApiKey req = "" then
    { response := { status := 500, error := some "Gemini API Key not configured"
                    originalText := none, translatedText := none }
      upstreamRequest := none, upstreamCalls := 0 }
  else
    match req.audio with
    | none =>
      { response := { status := 400, error := some "No audio file provided"
                      originalText := none, translatedText := none }
        upstreamRequest := none, upstreamCalls := 0 }
    | some audioFile =>
      let inlinePart : InlineData := { mimeType := "audio/webm", bytes := audioFile.bytes }
      match upstream with
      | .threw msg =>
        { response := { status := 500
                        error := some (if msg = "" then "Unknown error" else msg)
                        originalText := none, translatedText := none }
          upstreamRequest := some inlinePart, upstreamCalls := 1 }
      | .ok text =>
        match jsonParse (stripFences text).trim with
        | none =>
          { response := { status := 500, error := some "Failed to parse Gemini response"
                          originalText := none, translatedText := none }
            upstreamRequest := some inlinePart, upstreamCalls := 1 }
        | some (og, tr) =>
          { response := { status := 200, error := none
                          originalText := some og, translatedText := some tr }
            upstreamRequest := some inlinePart, upstreamCalls := 1 }

/-- C9: each failure case of the translation route yields its own classified
error — a 500 configuration error when no API key is set, a 400 invalid-input
error when no audio payload is provided, and a 500 upstream error when the
capability call throws or returns unparsable content; every non-OK response
carries an error for the caller, and the upstream call is never retried
(at most one call per request). -/
theorem C9_error_taxonomy (req : ApiRequest) (upstream : UpstreamOutcome)
    (jsonParse : String → Option (String × String)) :
    (effectiveApiKey req = "" →
      postTranslate req upstream jsonParse =
        { response := { status := 500, error := some "Gemini API Key not configured"
                        originalText := none, translatedText := none }
          upstreamRequest := none, upstreamCalls := 0 }) ∧
    (effectiveApiKey req ≠ "" → req.audio = none →
      postTranslate req upstream jsonParse =
        { response := { status := 400, error := some "No audio file provided"
                        originalText := none, translatedText := none }
          upstreamRequest := none, upstreamCalls := 0 }) ∧
    (∀ msg audioFile, effectiveApiKey req ≠ "" → req.audio = some audioFile →
      upstream = .threw msg →
      (postTranslate req upstream jsonParse).response.status = 500 ∧
      (postTranslate req upstream jsonParse).response.error =
        some (if msg = "" then "Unknown error" else msg) ∧
      (postTranslate req upstream jsonParse).upstreamCalls = 1) ∧
    (∀ text audioFile, effectiveApiKey req ≠ "" → req.audio = some audioFile →
      upstream = .ok text → jsonParse (stripFences text).trim = none →
      (postTranslate req upstream jsonParse).response.status = 500 ∧
      (postTranslate req upstream jsonParse).response.error =
        some "Failed to parse Gemini response" ∧
      (postTranslate req upstream jsonParse).upstreamCalls = 1) ∧
    (postTranslate req upstream jsonParse).upstreamCalls ≤ 1 ∧
    ((postTranslate req upstream jsonParse).response.status ≠ 200 →
      (postTranslate req upstream jsonParse).response.error.isSome = true) := by
  refine ⟨?_, ?_, ?_, ?_, ?_, ?_⟩
  · intro hkey
    simp [postTranslate, hkey]
  · intro hkey haudio
    simp [postTranslate, hkey, haudio]
  · intro msg audioFile hkey haudio hup
    subst hup
    simp [postTranslate, hkey, haudio]
  · intro text audioFile hkey haudio hup hparse
    subst hup
    simp [postTranslate, hkey, haudio, hparse]
  · unfold postTranslate
    split
    · simp
    · split
      · simp
      · cases upstream with
        | threw msg => simp
        | ok text =>
          rcases h : jsonParse (stripFences text).trim with _ | ⟨og, tr⟩ <;> simp [h]
  · unfold postTranslate
    split
    · simp
    · split
      · simp
      · cases upstream with
        | threw msg => simp
        | ok text =>
          rcases h : jsonParse (stripFences text).trim with _ | ⟨og, tr⟩ <;> simp [h]

/-- Witness for C9: each classified branch evaluated at a concrete request. -/
theorem C9_witness :
    postTranslate ⟨"", "", some ⟨[1], "audio/mp4"⟩, "ko", "vi"⟩ (.ok "x")
        (fun _ => none) =
      { response := { status := 500, error := some "Gemini API Key not configured"
                      originalText := none, translatedText := none }
        upstreamRequest := none, upstreamCalls := 0 } ∧
    postTranslate ⟨"k", "", none, "ko", "vi"⟩ (.ok "x") (fun _ => none) =
      { response := { status := 400, error := some "No audio file provided"
                      originalText := none, translatedText := none }
        upstreamRequest := none, upstreamCalls := 0 } ∧
    ((postTranslate ⟨"k", "", some ⟨[1], "audio/mp4"⟩, "ko", "vi"⟩ (.threw "boom")
        (fun _ => none)).response.status = 500 ∧
      (postTranslate ⟨"k", "", some ⟨[1], "audio/mp4"⟩, "ko", "vi"⟩ (.threw "boom")
        (fun _ => none)).response.error =
        some (if "boom" = "" then "Unknown error" else "boom") ∧
      (postTranslate ⟨"k", "", some ⟨[1], "audio/mp4"⟩, "ko", "vi"⟩ (.threw "boom")
        (fun _ => none)).upstreamCalls = 1) ∧
    ((postTranslate ⟨"k", "", some ⟨[1], "audio/mp4"⟩, "ko", "vi"⟩ (.ok "not json")
        (fun _ => none)).response.status = 500 ∧
      (postTranslate ⟨"k", "", some ⟨[1], "audio/mp4"⟩, "ko", "vi"⟩ (.ok "not json")
        (fun _ => none)).response.error = some "Failed to parse Gemini response" ∧
      (postTranslate ⟨"k", "", some ⟨[1], "audio/mp4"⟩, "ko", "vi"⟩ (.ok "not json")
        (fun _ => none)).upstreamCalls = 1) :=
  ⟨(C9_error_taxonomy ⟨"", "", some ⟨[1], "audio/mp4"⟩, "ko", "vi"⟩ (.ok "x")
      (fun _ => none)).1 (by decide),
   (C9_error_taxonomy ⟨"k", "", none, "ko", "vi"⟩ (.ok "x") (fun _ => none)).2.1
     (by decide) rfl,
   (C9_error_taxonomy ⟨"k", "", some ⟨[1], "audio/mp4"⟩, "ko", "vi"⟩ (.threw "boom")
      (fun _ => none)).2.2.1 "boom" ⟨[1], "audio/mp4"⟩ (by decide) rfl rfl,
   (C9_error_taxonomy ⟨"k", "", some ⟨[1], "audio/mp4"⟩, "ko", "vi"⟩ (.ok "not json")
      (fun _ => none)).2.2.2.1 "not json" ⟨[1], "audio/mp4"⟩ (by decide) rfl rfl rfl⟩

/-- C10: the media type presented to the translation capability is the
constant `audio/webm` — the client uploads the blob under the name
`recording.webm` and the route tags the inline data `audio/webm` — whatever
the payload's own media-type tag, while that tag itself comes from the
platform recorder and falls back to `audio/mp4` when the recorder reports
none. -/
theorem C10_capability_media_type_is_constant
    (myLanguage : Lang) (roomId : String) (blobBytes : Bytes) (blobType : String)
    (result : FetchResult) (req : ApiRequest) (audioFile : AudioFile)
    (upstream : UpstreamOutcome) (jsonParse : String → Option (String × String))
    (recorderMime : String) :
    (processAudio myLanguage roomId blobBytes blobType result).request.fileName =
      "recording.webm" ∧
    (effectiveApiKey req ≠ "" → req.audio = some audioFile →
      (postTranslate req upstream jsonParse).upstreamRequest =
        some { mimeType := "audio/webm", bytes := audioFile.bytes }) ∧
    effectiveMime "" = "audio/mp4" ∧
    (recorderMime ≠ "" → effectiveMime recorderMime = recorderMime) := by
  refine ⟨rfl, ?_, rfl, ?_⟩
  · intro hkey haudio
    unfold postTranslate
    rw [if_neg hkey, haudio]
    cases upstream with
    | threw msg => rfl
    | ok text =>
      rcases h : jsonParse (stripFences text).trim with _ | ⟨og, tr⟩ <;> simp [h]
  · intro hmime
    simp [effectiveMime, hmime]

/-- Witness for C10 with a recorder-tagged `audio/mp4` blob: the upload name
and the upstream mime type stay constant. -/
theorem C10_witness :
    (processAudio Lang.ko "r" [1, 2] "audio/mp4" (.success "a" "b")).request.fileName =
      "recording.webm" ∧
    (postTranslate ⟨"k", "", some ⟨[1, 2], "audio/mp4"⟩, "ko", "vi"⟩ (.ok "x")
        (fun _ => none)).upstreamRequest =
      some { mimeType := "audio/webm", bytes := [1, 2] } ∧
    effectiveMime "" = "audio/mp4" ∧
    effectiveMime "audio/mp4" = "audio/mp4" := by
  have h := C10_capability_media_type_is_constant Lang.ko "r" [1, 2] "audio/mp4"
    (.success "a" "b") ⟨"k", "", some ⟨[1, 2], "audio/mp4"⟩, "ko", "vi"⟩
    ⟨[1, 2], "audio/mp4"⟩ (.ok "x") (fun _ => none) "audio/mp4"
  exact ⟨h.1, h.2.1 (by decide) rfl, h.2.2.1, h.2.2.2 (by decide)⟩

end CoupleTranslate
